import Mathlib

/-!
# Verification of the hydrogen upload-ingestion subsystem

Shallow embedding of `src/ts/HUploadManager.ts` and `src/ts/HRequest.ts`.
Byte chunks are modelled as `List Nat`, the Node.js promise settlement
(first `resolve`/`reject` wins, later calls are no-ops) as an
`Option Outcome` accumulator, and the event-driven `data`/`end` handlers
as a fold over the list of chunks followed by the end-of-stream step.
Nondeterministic inputs of the environment (the crypto random name source,
the filesystem existence check, the generated fresh temp path) are passed
as explicit parameters.
-/

namespace Hydrogen

/-- `HError` from `HError.ts` (not in `src/`): the library rejects with an
error carrying an HTTP status code (`HError.init().code(c).msg(...)`).
Messages are elided; only the status code is modelled. -/
structure HError where
  code : Nat
deriving DecidableEq, Repr

/-- Settlement state of the promise returned by `handleRequest`:
`resolved` models `resolve()`, `rejected c` models `reject(HError...code(c)...)`. -/
inductive Outcome where
  | resolved : Outcome
  | rejected : Nat → Outcome
deriving DecidableEq, Repr

/-- A JS promise settles exactly once: a later `resolve`/`reject` on an
already-settled promise is a no-op.  `settle s o` records outcome `o`
only if no outcome `s` was recorded before. -/
def settle (s : Option Outcome) (o : Outcome) : Option Outcome :=
  match s with
  | some x => some x
  | none => some o

/-- `HUploadManagerLocation` from `HUploadManager.ts` (PAYLOAD = buffer mode,
STREAM = stream-to-disk mode). -/
inductive HUploadManagerLocation where
  | PAYLOAD
  | STREAM
deriving DecidableEq, Repr

/-- The `HUploadManager` instance fields: `allowedExtensions`, `sizeLimit`,
`location` (all set in the constructor from `HUploadManagerConstructorType`). -/
structure HUploadManager where
  allowedExtensions : Option (List String)
  sizeLimit : Option Nat
  location : HUploadManagerLocation

/-- The mutable state of an `HRequest` relevant to ingestion and decoding:
`headers` (read-only mapping, queried at string keys), the byte `payload`,
the `payloadSteamPath` (sic, the source's field name) and the decoded
`payloadObject` cache.  `α` is the type of decoded JSON values (the decoder
and conformity checker are external capabilities, passed as functions). -/
structure HRequestState (α : Type) where
  headers : String → Option String
  payload : Option (List Nat) := none
  payloadSteamPath : Option String := none
  payloadObject : Option α := none

/-- Model of JavaScript `parseInt(s)` restricted to decimal inputs: skip
leading spaces, an optional sign, then take leading decimal digits;
`none` models `NaN` (no digits found). -/
def parseIntJS (s : String) : Option Int :=
  let cs := s.toList.dropWhile (fun c => c == ' ')
  let signAndRest : Int × List Char :=
    match cs with
    | '-' :: rest => (-1, rest)
    | '+' :: rest => (1, rest)
    | _ => (1, cs)
  let ds := signAndRest.2.takeWhile Char.isDigit
  if ds.isEmpty then none
  else some (signAndRest.1 * (ds.foldl (fun acc c => acc * 10 + (c.toNat - 48)) 0 : Nat))

/-- `HUploadManager.getNewFilePath`: draw a random hex name, and while a file
exists at `/tmp/<name>`, draw again; return the first non-colliding path.
The crypto source is modelled as the sequence `names` of drawn identifiers
and `FS.existsSync` as the predicate `ex`; the source's unbounded `while`
loop terminates exactly when some drawn name is fresh, which is the
hypothesis `h`. -/
def getNewFilePath (ex : String → Bool) (names : Nat → String)
    (h : ∃ n, ex ("/tmp/" ++ names n) = false) : String :=
  "/tmp/" ++ names (Nat.find h)

/-- The declared-content-type precheck of `handleRequest` (lines 85–91):
with `allowedExtensions` set, a missing `content-type` header or one for
which `indexOf(mime) === -1` makes `throwFileIncorrectType()` throw
(HError 415). -/
def typeRejected {α : Type} (m : HUploadManager) (req : HRequestState α) : Bool :=
  match m.allowedExtensions with
  | some exts =>
    match req.headers "content-type" with
    | none => true
    | some mime => !(exts.contains mime)
  | none => false

/-- The declared-content-length fast path of `handleRequest` (lines 93–104):
with `sizeLimit` set and a `content-length` header present whose `parseInt`
is not NaN and exceeds the limit, `reject` with HError 413. -/
def lengthRejected {α : Type} (m : HUploadManager) (req : HRequestState α) : Bool :=
  match m.sizeLimit with
  | some lim =>
    match req.headers "content-length" with
    | some cl =>
      match parseIntJS cl with
      | some n => decide ((lim : Int) < n)
      | none => false
    | none => false
  | none => false

/-- `this.sizeLimit !== undefined && total > this.sizeLimit`, the per-chunk
ceiling test used in both `data` handlers. -/
def sizeExceeded (sizeLimit : Option Nat) (total : Nat) : Bool :=
  match sizeLimit with
  | some lim => decide (lim < total)
  | none => false

/-- The PAYLOAD-mode `data` handler loop (lines 108–115): each chunk is
concatenated onto `payload`; if the ceiling is then exceeded, `reject(413)`
is issued (a no-op when already settled).  Node keeps delivering `data`
events to the still-attached handler after a rejection, so the fold runs
over every chunk of the stream. -/
def bufferConsume (sizeLimit : Option Nat) :
    List (List Nat) → List Nat → Option Outcome → List Nat × Option Outcome
  | [], payload, settled => (payload, settled)
  | chunk :: rest, payload, settled =>
    let payload := payload ++ chunk
    let settled :=
      if sizeExceeded sizeLimit payload.length then settle settled (Outcome.rejected 413)
      else settled
    bufferConsume sizeLimit rest payload settled

/-- The STREAM-mode `data` handler loop (lines 133–142): each chunk's length
is added to `length` and the chunk is written to the write stream; if the
ceiling is then exceeded, `reject(413)` is issued (a no-op when already
settled).  As in PAYLOAD mode the handler stays attached for the whole
stream.  Returns (running length, file contents written, settlement). -/
def streamConsume (sizeLimit : Option Nat) :
    List (List Nat) → Nat → List Nat → Option Outcome → Nat × List Nat × Option Outcome
  | [], len, file, settled => (len, file, settled)
  | chunk :: rest, len, file, settled =>
    let len := len + chunk.length
    let file := file ++ chunk
    let settled :=
      if sizeExceeded sizeLimit len then settle settled (Outcome.rejected 413)
      else settled
    streamConsume sizeLimit rest len file settled

/-- Observable result of one `handleRequest` call: the final request state,
the promise outcome, how many chunks the `data` handler processed, and the
filesystem effects on the temp file (creation by `createWriteStream`,
contents written, whether a delete ever happened). -/
structure IngestResult (α : Type) where
  req : HRequestState α
  outcome : Outcome
  chunksConsumed : Nat
  fileCreated : Bool
  fileContents : List Nat
  fileDeleted : Bool
  filePath : Option String

/-- Early-rejection result: the executor returns before attaching any stream
handler, so no chunk is consumed, no file is created and the request state
is untouched. -/
def earlyResult {α : Type} (req : HRequestState α) (code : Nat) : IngestResult α :=
  { req := req, outcome := Outcome.rejected code, chunksConsumed := 0,
    fileCreated := false, fileContents := [], fileDeleted := false, filePath := none }

/-- The mode dispatch of `handleRequest` (lines 106–152), reached when both
prechecks pass.  PAYLOAD: fold the `data` handler over all chunks, then the
`end` handler runs `req.setPayload(payload); resolve()` unconditionally.
STREAM: `getNewFilePath()` (its result passed in as `freshPath`) and
`createWriteStream` run first, then the `data` handler folds over all
chunks, then the `end` handler runs `req.setPayloadStreamPath(filePath);
writeStream.end(); resolve()` unconditionally.  No code path deletes the
file, so `fileDeleted` is `false` in both branches; the final promise
outcome is the first settlement, the end handler's `resolve()` counting
only if nothing settled earlier. -/
def runIngestion {α : Type} (m : HUploadManager) (req : HRequestState α)
    (freshPath : String) (chunks : List (List Nat)) : IngestResult α :=
  match m.location with
  | HUploadManagerLocation.PAYLOAD =>
    let r := bufferConsume m.sizeLimit chunks [] none
    { req := { req with payload := some r.1 },
      outcome := (settle r.2 Outcome.resolved).getD Outcome.resolved,
      chunksConsumed := chunks.length,
      fileCreated := false, fileContents := [], fileDeleted := false, filePath := none }
  | HUploadManagerLocation.STREAM =>
    let r := streamConsume m.sizeLimit chunks 0 [] none
    { req := { req with payloadSteamPath := some freshPath },
      outcome := (settle r.2.2 Outcome.resolved).getD Outcome.resolved,
      chunksConsumed := chunks.length,
      fileCreated := true, fileContents := r.2.1, fileDeleted := false,
      filePath := some freshPath }

/-- `HUploadManager.handleRequest` (lines 79–156) on a complete stream
(`chunks` in arrival order followed by end-of-stream): content-type
precheck (throw 415), then declared-length fast path (reject 413), then the
mode dispatch. -/
def handleRequest {α : Type} (m : HUploadManager) (req : HRequestState α)
    (freshPath : String) (chunks : List (List Nat)) : IngestResult α :=
  if typeRejected m req then earlyResult req 415
  else if lengthRejected m req then earlyResult req 413
  else runIngestion m req freshPath chunks

/-- `HRequest.fetchPayload` (lines 62–75): if no buffered payload is present
return leaving the state unchanged; otherwise attempt UTF-8 decode + JSON
parse (modelled by the external `parse`); on success store the value in
`payloadObject`, on failure the `catch \x7b\x7d` swallows the exception and
the cache is left as it was. -/
def fetchPayload {α : Type} (parse : List Nat → Option α) (st : HRequestState α) :
    HRequestState α :=
  match st.payload with
  | none => st
  | some buf =>
    match parse buf with
    | some v => { st with payloadObject := some v }
    | none => st

/-- Result of `HRequest.verifyPayloadAgainstTypeDefinition`: it either
returns normally or throws an HError. -/
inductive VerifyResult where
  | ok : VerifyResult
  | error : Nat → VerifyResult
deriving DecidableEq, Repr

/-- `HRequest.verifyPayloadAgainstTypeDefinition` (lines 77–83): throw
HError 400 when `payloadObject` is undefined; otherwise run the external
conformity checker (typit `ObjectType.checkConformity`) and throw
HError 400 when it fails. -/
def verifyPayloadAgainstTypeDefinition {α : Type} (checkConformity : α → Bool)
    (st : HRequestState α) : VerifyResult :=
  match st.payloadObject with
  | none => VerifyResult.error 400
  | some v => if checkConformity v then VerifyResult.ok else VerifyResult.error 400

/-! ## Supporting lemmas about the chunk-consumption folds -/

/-- The buffer accumulated by the PAYLOAD-mode loop is the initial buffer
followed by every chunk of the stream, in arrival order. -/
theorem bufferConsume_fst (sl : Option Nat) (chunks : List (List Nat)) :
    ∀ acc s, (bufferConsume sl chunks acc s).1 = acc ++ chunks.flatten := by
  induction chunks with
  | nil => intro acc s; simp [bufferConsume]
  | cons c rest ih =>
    intro acc s
    simp only [bufferConsume, List.flatten_cons, ih, List.append_assoc]

/-- With no ceiling configured the PAYLOAD-mode loop never settles. -/
theorem bufferConsume_snd_noLimit (chunks : List (List Nat)) :
    ∀ acc s, (bufferConsume none chunks acc s).2 = s := by
  induction chunks with
  | nil => intro acc s; rfl
  | cons c rest ih => intro acc s; simpa [bufferConsume, sizeExceeded] using ih (acc ++ c) s

/-- If the whole accumulated buffer would stay within the ceiling, no prefix
of the fold triggers a rejection. -/
theorem bufferConsume_snd_withinLimit (lim : Nat) (chunks : List (List Nat)) :
    ∀ acc, (acc ++ chunks.flatten).length ≤ lim →
      (bufferConsume (some lim) chunks acc none).2 = none := by
  induction chunks with
  | nil => intro acc _; rfl
  | cons c rest ih =>
    intro acc h
    have hrest : ((acc ++ c) ++ rest.flatten).length ≤ lim := by
      rw [List.append_assoc, ← List.flatten_cons]
      exact h
    have hchunk : (acc ++ c).length ≤ lim := by
      simp only [List.length_append] at hrest ⊢
      omega
    have hcond : sizeExceeded (some lim) (acc ++ c).length = false := by
      unfold sizeExceeded
      exact decide_eq_false (Nat.not_lt.mpr hchunk)
    simp only [bufferConsume, hcond, if_neg, Bool.false_eq_true, if_false]
    exact ih (acc ++ c) hrest

/-! ## Claims -/

/-- Claim C1 (code_bug): the spec requires a rejected STREAM-mode ingestion
to delete its temp file before the outcome is surfaced, but no path of
`handleRequest` ever deletes the file.  Evaluated at a failing input: with
ceiling 10 and STREAM mode, a single 11-byte chunk is rejected with 413,
yet the file created at the generated temp path still exists (created and
never deleted), and the path is even attached to the request on stream
end. -/
theorem streamRejectedUploadLeavesTempFile :
    (handleRequest ⟨none, some 10, HUploadManagerLocation.STREAM⟩
        (⟨fun _ => none, none, none, none⟩ : HRequestState Unit)
        "/tmp/ab" [List.replicate 11 0]).outcome = Outcome.rejected 413 ∧
    (handleRequest ⟨none, some 10, HUploadManagerLocation.STREAM⟩
        (⟨fun _ => none, none, none, none⟩ : HRequestState Unit)
        "/tmp/ab" [List.replicate 11 0]).fileCreated = true ∧
    (handleRequest ⟨none, some 10, HUploadManagerLocation.STREAM⟩
        (⟨fun _ => none, none, none, none⟩ : HRequestState Unit)
        "/tmp/ab" [List.replicate 11 0]).fileDeleted = false ∧
    (handleRequest ⟨none, some 10, HUploadManagerLocation.STREAM⟩
        (⟨fun _ => none, none, none, none⟩ : HRequestState Unit)
        "/tmp/ab" [List.replicate 11 0]).req.payloadSteamPath = some "/tmp/ab" :=
  ⟨rfl, rfl, rfl, rfl⟩

set_option maxRecDepth 100000 in
/-- Claim C2 (code_bug): the spec's scenario — BUFFER mode, ceiling 1024,
chunks of sizes [512, 512, 1] — does reject with `PayloadTooLarge` 413 at
the third chunk, but the accumulated buffer is not discarded: the `end`
handler unconditionally runs `req.setPayload(payload)`, so the full
1025-byte concatenation is attached to the context after the call, where
the claim says the payload remains absent. -/
theorem bufferRejectedUploadStillAttachesPayload :
    (handleRequest ⟨none, some 1024, HUploadManagerLocation.PAYLOAD⟩
        (⟨fun _ => none, none, none, none⟩ : HRequestState Unit)
        "/tmp/ab" [List.replicate 512 1, List.replicate 512 2, [3]]).outcome =
      Outcome.rejected 413 ∧
    (handleRequest ⟨none, some 1024, HUploadManagerLocation.PAYLOAD⟩
        (⟨fun _ => none, none, none, none⟩ : HRequestState Unit)
        "/tmp/ab" [List.replicate 512 1, List.replicate 512 2, [3]]).req.payload =
      some (List.replicate 512 1 ++ List.replicate 512 2 ++ [3]) := by
  refine ⟨rfl, ?_⟩
  show (runIngestion ⟨none, some 1024, HUploadManagerLocation.PAYLOAD⟩
      (⟨fun _ => none, none, none, none⟩ : HRequestState Unit)
      "/tmp/ab" [List.replicate 512 1, List.replicate 512 2, [3]]).req.payload = _
  simp [runIngestion, bufferConsume_fst, List.append_assoc]

/-- Claim C3 (code_bug): after a rejection is resolved the ingestor is
required to stop consuming chunks and stop writing, but the `data` handler
stays attached and keeps appending.  Evaluated at a failing input: BUFFER
mode with ceiling 1, chunks [[7,7],[8,8,8]] — the first chunk triggers the
413 rejection, yet the second chunk is still consumed and appended, leaving
a 5-byte buffer that is then attached to the context. -/
theorem chunksConsumedAfterRejection :
    (handleRequest ⟨none, some 1, HUploadManagerLocation.PAYLOAD⟩
        (⟨fun _ => none, none, none, none⟩ : HRequestState Unit)
        "/tmp/ab" [[7, 7], [8, 8, 8]]).outcome = Outcome.rejected 413 ∧
    (handleRequest ⟨none, some 1, HUploadManagerLocation.PAYLOAD⟩
        (⟨fun _ => none, none, none, none⟩ : HRequestState Unit)
        "/tmp/ab" [[7, 7], [8, 8, 8]]).chunksConsumed = 2 ∧
    (handleRequest ⟨none, some 1, HUploadManagerLocation.PAYLOAD⟩
        (⟨fun _ => none, none, none, none⟩ : HRequestState Unit)
        "/tmp/ab" [[7, 7], [8, 8, 8]]).req.payload = some [7, 7, 8, 8, 8] :=
  ⟨rfl, rfl, rfl⟩

/-- Claim C4: a BUFFER-mode ingestion that passes the content-type and
declared-length prechecks and whose total byte length stays within the
ceiling (vacuously, when no ceiling is configured) resolves `Success`, and
the payload attached to the context is the concatenation of the chunks in
arrival order, whose length is the sum of the chunk lengths. -/
theorem bufferModeSuccessPayloadConcat {α : Type} (m : HUploadManager)
    (req : HRequestState α) (p : String) (chunks : List (List Nat))
    (hloc : m.location = HUploadManagerLocation.PAYLOAD)
    (htype : typeRejected m req = false)
    (hlen : lengthRejected m req = false)
    (hsize : ∀ lim, m.sizeLimit = some lim → chunks.flatten.length ≤ lim) :
    (handleRequest m req p chunks).outcome = Outcome.resolved ∧
    (handleRequest m req p chunks).req.payload = some chunks.flatten ∧
    chunks.flatten.length = (chunks.map List.length).sum := by
  have hsettle : (bufferConsume m.sizeLimit chunks [] none).2 = none := by
    cases hsl : m.sizeLimit with
    | none => exact bufferConsume_snd_noLimit chunks [] none
    | some lim =>
      refine bufferConsume_snd_withinLimit lim chunks [] ?_
      simpa using hsize lim hsl
  refine ⟨?_, ?_, List.length_flatten chunks⟩
  · simp [handleRequest, htype, hlen, runIngestion, hloc, hsettle, settle]
  · simp [handleRequest, htype, hlen, runIngestion, hloc, bufferConsume_fst]

/-- Witness for C4 at a concrete input: ceiling 10, chunks [[1,2],[3]]. -/
theorem bufferModeSuccessPayloadConcat_wit :
    (handleRequest ⟨none, some 10, HUploadManagerLocation.PAYLOAD⟩
        (⟨fun _ => none, none, none, none⟩ : HRequestState Unit)
        "/tmp/ab" [[1, 2], [3]]).outcome = Outcome.resolved ∧
    (handleRequest ⟨none, some 10, HUploadManagerLocation.PAYLOAD⟩
        (⟨fun _ => none, none, none, none⟩ : HRequestState Unit)
        "/tmp/ab" [[1, 2], [3]]).req.payload = some [1, 2, 3] ∧
    ([[1, 2], [3]] : List (List Nat)).flatten.length =
      (([[1, 2], [3]] : List (List Nat)).map List.length).sum :=
  bufferModeSuccessPayloadConcat ⟨none, some 10, HUploadManagerLocation.PAYLOAD⟩
    (⟨fun _ => none, none, none, none⟩ : HRequestState Unit) "/tmp/ab" [[1, 2], [3]]
    rfl rfl rfl (fun lim h => by injection h with h; subst h; decide)

/-- Claim C5: with an allow-list configured, a missing `content-type` header
or one that is not an exact member of the allow-list makes `handleRequest`
reject immediately with 415: no chunk is consumed, no file is created,
nothing is written, and the request state is untouched. -/
theorem contentTypeRejectionImmediate {α : Type} (m : HUploadManager)
    (req : HRequestState α) (p : String) (chunks : List (List Nat)) (exts : List String)
    (hal : m.allowedExtensions = some exts)
    (hmime : ∀ mime, req.headers "content-type" = some mime → exts.contains mime = false) :
    (handleRequest m req p chunks).outcome = Outcome.rejected 415 ∧
    (handleRequest m req p chunks).chunksConsumed = 0 ∧
    (handleRequest m req p chunks).fileCreated = false ∧
    (handleRequest m req p chunks).fileContents = [] ∧
    (handleRequest m req p chunks).req = req := by
  have ht : typeRejected m req = true := by
    cases hh : req.headers "content-type" with
    | none => simp [typeRejected, hal, hh]
    | some mime =>
      simp only [typeRejected, hal, hh, Bool.not_eq_true']
      exact hmime mime hh
  simp [handleRequest, ht, earlyResult]

/-- Witness for C5: allow-list ["application/json"], no headers at all, one
pending chunk — rejected 415 with zero chunks consumed. -/
theorem contentTypeRejectionImmediate_wit :
    (handleRequest ⟨some ["application/json"], none, HUploadManagerLocation.PAYLOAD⟩
        (⟨fun _ => none, none, none, none⟩ : HRequestState Unit)
        "/tmp/ab" [[1]]).outcome = Outcome.rejected 415 ∧
    (handleRequest ⟨some ["application/json"], none, HUploadManagerLocation.PAYLOAD⟩
        (⟨fun _ => none, none, none, none⟩ : HRequestState Unit)
        "/tmp/ab" [[1]]).chunksConsumed = 0 ∧
    (handleRequest ⟨some ["application/json"], none, HUploadManagerLocation.PAYLOAD⟩
        (⟨fun _ => none, none, none, none⟩ : HRequestState Unit)
        "/tmp/ab" [[1]]).fileCreated = false ∧
    (handleRequest ⟨some ["application/json"], none, HUploadManagerLocation.PAYLOAD⟩
        (⟨fun _ => none, none, none, none⟩ : HRequestState Unit)
        "/tmp/ab" [[1]]).fileContents = [] ∧
    (handleRequest ⟨some ["application/json"], none, HUploadManagerLocation.PAYLOAD⟩
        (⟨fun _ => none, none, none, none⟩ : HRequestState Unit)
        "/tmp/ab" [[1]]).req = (⟨fun _ => none, none, none, none⟩ : HRequestState Unit) :=
  contentTypeRejectionImmediate ⟨some ["application/json"], none, HUploadManagerLocation.PAYLOAD⟩
    (⟨fun _ => none, none, none, none⟩ : HRequestState Unit) "/tmp/ab" [[1]]
    ["application/json"] rfl (fun _ h => Option.noConfusion h)

/-- Claim C6: with a size ceiling configured and the content-type precheck
passing, a `content-length` header whose `parseInt` value strictly exceeds
the ceiling makes `handleRequest` reject immediately with 413, before any
chunk is read and before any file is created. -/
theorem declaredLengthRejectionImmediate {α : Type} (m : HUploadManager)
    (req : HRequestState α) (p : String) (chunks : List (List Nat))
    (lim : Nat) (cl : String) (n : Int)
    (htype : typeRejected m req = false)
    (hlim : m.sizeLimit = some lim)
    (hcl : req.headers "content-length" = some cl)
    (hparse : parseIntJS cl = some n)
    (hgt : (lim : Int) < n) :
    (handleRequest m req p chunks).outcome = Outcome.rejected 413 ∧
    (handleRequest m req p chunks).chunksConsumed = 0 ∧
    (handleRequest m req p chunks).fileCreated = false ∧
    (handleRequest m req p chunks).req = req := by
  have hl : lengthRejected m req = true := by
    unfold lengthRejected
    simp only [hlim, hcl, hparse, decide_eq_true_eq]
    exact hgt
  simp [handleRequest, htype, hl, earlyResult]

/-- Witness for C6: ceiling 10, declared content-length "11". -/
theorem declaredLengthRejectionImmediate_wit :
    (handleRequest ⟨none, some 10, HUploadManagerLocation.STREAM⟩
        (⟨fun k => if k == "content-length" then some "11" else none,
          none, none, none⟩ : HRequestState Unit)
        "/tmp/ab" [[1]]).outcome = Outcome.rejected 413 ∧
    (handleRequest ⟨none, some 10, HUploadManagerLocation.STREAM⟩
        (⟨fun k => if k == "content-length" then some "11" else none,
          none, none, none⟩ : HRequestState Unit)
        "/tmp/ab" [[1]]).chunksConsumed = 0 ∧
    (handleRequest ⟨none, some 10, HUploadManagerLocation.STREAM⟩
        (⟨fun k => if k == "content-length" then some "11" else none,
          none, none, none⟩ : HRequestState Unit)
        "/tmp/ab" [[1]]).fileCreated = false ∧
    (handleRequest ⟨none, some 10, HUploadManagerLocation.STREAM⟩
        (⟨fun k => if k == "content-length" then some "11" else none,
          none, none, none⟩ : HRequestState Unit)
        "/tmp/ab" [[1]]).req =
      (⟨fun k => if k == "content-length" then some "11" else none,
        none, none, none⟩ : HRequestState Unit) :=
  declaredLengthRejectionImmediate ⟨none, some 10, HUploadManagerLocation.STREAM⟩
    (⟨fun k => if k == "content-length" then some "11" else none,
      none, none, none⟩ : HRequestState Unit)
    "/tmp/ab" [[1]] 10 "11" 11 rfl rfl rfl (by decide) (by decide)

/-- Claim C7: payload decoding never raises — `fetchPayload` is a total state
transformer that leaves the state unchanged when no buffered payload is
present and also when the UTF-8/JSON decode fails (so an initially empty
decoded cache stays empty), and `verifyPayloadAgainstTypeDefinition` fails
with the 400 validation error exactly when no decoded value is present or
the decoded value does not conform to the shape. -/
theorem fetchPayloadTotalVerifyExact {α : Type} (parse : List Nat → Option α)
    (checkConformity : α → Bool) (st : HRequestState α) :
    (st.payload = none → fetchPayload parse st = st) ∧
    (∀ buf, st.payload = some buf → parse buf = none → fetchPayload parse st = st) ∧
    (verifyPayloadAgainstTypeDefinition checkConformity st = VerifyResult.error 400 ↔
      st.payloadObject = none ∨
        ∃ v, st.payloadObject = some v ∧ checkConformity v = false) := by
  refine ⟨fun h => by simp [fetchPayload, h], fun buf hb hp => by simp [fetchPayload, hb, hp], ?_⟩
  cases ho : st.payloadObject with
  | none => simp [verifyPayloadAgainstTypeDefinition, ho]
  | some v =>
    cases hc : checkConformity v with
    | true => simp [verifyPayloadAgainstTypeDefinition, ho, hc]
    | false => simp [verifyPayloadAgainstTypeDefinition, ho, hc]

/-- Witness for C7: a failing parser on a one-byte payload leaves the state
(and hence the empty decoded cache) unchanged, and the shape check then
fails with the 400 validation error. -/
theorem fetchPayloadTotalVerifyExact_wit :
    fetchPayload (fun _ => (none : Option Nat))
        (⟨fun _ => none, some [1], none, none⟩ : HRequestState Nat) =
      (⟨fun _ => none, some [1], none, none⟩ : HRequestState Nat) ∧
    verifyPayloadAgainstTypeDefinition (fun _ => false)
        (⟨fun _ => none, some [1], none, none⟩ : HRequestState Nat) =
      VerifyResult.error 400 :=
  ⟨(fetchPayloadTotalVerifyExact (fun _ => (none : Option Nat)) (fun _ => false)
      (⟨fun _ => none, some [1], none, none⟩ : HRequestState Nat)).2.1 [1] rfl rfl,
   (fetchPayloadTotalVerifyExact (fun _ => (none : Option Nat)) (fun _ => false)
      (⟨fun _ => none, some [1], none, none⟩ : HRequestState Nat)).2.2.mpr (Or.inl rfl)⟩

/-- Claim C8: `getNewFilePath` composes a drawn random identifier with the
fixed `/tmp/` staging directory; the returned path did not exist at the
moment of its existence check, and every earlier drawn candidate was
re-generated precisely because a file existed at it. -/
theorem getNewFilePathFresh (ex : String → Bool) (names : Nat → String)
    (h : ∃ n, ex ("/tmp/" ++ names n) = false) :
    ex (getNewFilePath ex names h) = false ∧
    ∃ k, getNewFilePath ex names h = "/tmp/" ++ names k ∧
      ∀ m, m < k → ex ("/tmp/" ++ names m) = true := by
  refine ⟨Nat.find_spec h, Nat.find h, rfl, fun m hm => ?_⟩
  have hne := Nat.find_min h hm
  cases hb : ex ("/tmp/" ++ names m) with
  | true => rfl
  | false => exact absurd hb hne

/-- Witness for C8: the first drawn name collides with the one existing file
`/tmp/aa`, the second draw `bb` is fresh and is returned. -/
theorem getNewFilePathFresh_wit :
    (fun s => s == "/tmp/aa")
      (getNewFilePath (fun s => s == "/tmp/aa")
        (fun n => if n == 0 then "aa" else "bb") ⟨1, by decide⟩) = false :=
  (getNewFilePathFresh (fun s => s == "/tmp/aa")
    (fun n => if n == 0 then "aa" else "bb") ⟨1, by decide⟩).1

/-- Claim C9: on a context whose payload slot is initially absent, a single
`handleRequest` call populates at most one of the in-memory payload and the
stream path: PAYLOAD mode never touches `payloadSteamPath`, STREAM mode
never touches `payload`, and the two are never both populated. -/
theorem payloadPopulatedAtMostOnce {α : Type} (m : HUploadManager)
    (req : HRequestState α) (p : String) (chunks : List (List Nat))
    (hp : req.payload = none) (hs : req.payloadSteamPath = none) :
    (m.location = HUploadManagerLocation.PAYLOAD →
      (handleRequest m req p chunks).req.payloadSteamPath = none) ∧
    (m.location = HUploadManagerLocation.STREAM →
      (handleRequest m req p chunks).req.payload = none) ∧
    ¬((handleRequest m req p chunks).req.payload ≠ none ∧
      (handleRequest m req p chunks).req.payloadSteamPath ≠ none) := by
  cases ht : typeRejected m req with
  | true => simp [handleRequest, ht, earlyResult, hp, hs]
  | false =>
    cases hl : lengthRejected m req with
    | true => simp [handleRequest, ht, hl, earlyResult, hp, hs]
    | false =>
      cases hloc : m.location with
      | PAYLOAD => simp [handleRequest, ht, hl, runIngestion, hloc, hs]
      | STREAM => simp [handleRequest, ht, hl, runIngestion, hloc, hp]

/-- Witness for C9 at a concrete STREAM-mode input: the in-memory payload
stays absent and only the stream path may be set. -/
theorem payloadPopulatedAtMostOnce_wit :
    ((⟨none, some 10, HUploadManagerLocation.STREAM⟩ : HUploadManager).location =
        HUploadManagerLocation.PAYLOAD →
      (handleRequest ⟨none, some 10, HUploadManagerLocation.STREAM⟩
        (⟨fun _ => none, none, none, none⟩ : HRequestState Unit)
        "/tmp/ab" [[1, 2]]).req.payloadSteamPath = none) ∧
    ((⟨none, some 10, HUploadManagerLocation.STREAM⟩ : HUploadManager).location =
        HUploadManagerLocation.STREAM →
      (handleRequest ⟨none, some 10, HUploadManagerLocation.STREAM⟩
        (⟨fun _ => none, none, none, none⟩ : HRequestState Unit)
        "/tmp/ab" [[1, 2]]).req.payload = none) ∧
    ¬((handleRequest ⟨none, some 10, HUploadManagerLocation.STREAM⟩
        (⟨fun _ => none, none, none, none⟩ : HRequestState Unit)
        "/tmp/ab" [[1, 2]]).req.payload ≠ none ∧
      (handleRequest ⟨none, some 10, HUploadManagerLocation.STREAM⟩
        (⟨fun _ => none, none, none, none⟩ : HRequestState Unit)
        "/tmp/ab" [[1, 2]]).req.payloadSteamPath ≠ none) :=
  payloadPopulatedAtMostOnce ⟨none, some 10, HUploadManagerLocation.STREAM⟩
    (⟨fun _ => none, none, none, none⟩ : HRequestState Unit) "/tmp/ab" [[1, 2]] rfl rfl

/-- Claim C10: with a size ceiling configured, a `content-length` header that
does not parse to a number (`parseInt` yields NaN) is treated as if absent:
the declared-length fast path does not reject, and (the content-type
precheck passing) `handleRequest` proceeds to the streaming-enforcement
mode dispatch unchanged. -/
theorem nanContentLengthSkipsFastPath {α : Type} (m : HUploadManager)
    (req : HRequestState α) (p : String) (chunks : List (List Nat))
    (lim : Nat) (cl : String)
    (htype : typeRejected m req = false)
    (hlim : m.sizeLimit = some lim)
    (hcl : req.headers "content-length" = some cl)
    (hnan : parseIntJS cl = none) :
    lengthRejected m req = false ∧
    handleRequest m req p chunks = runIngestion m req p chunks := by
  have hl : lengthRejected m req = false := by
    unfold lengthRejected
    simp only [hlim, hcl, hnan]
  exact ⟨hl, by simp [handleRequest, htype, hl]⟩

/-- Witness for C10: ceiling 10, content-length header "abc" (NaN) — the fast
path is skipped and ingestion runs the mode dispatch. -/
theorem nanContentLengthSkipsFastPath_wit :
    lengthRejected ⟨none, some 10, HUploadManagerLocation.PAYLOAD⟩
      (⟨fun k => if k == "content-length" then some "abc" else none,
        none, none, none⟩ : HRequestState Unit) = false ∧
    handleRequest ⟨none, some 10, HUploadManagerLocation.PAYLOAD⟩
      (⟨fun k => if k == "content-length" then some "abc" else none,
        none, none, none⟩ : HRequestState Unit) "/tmp/ab" [[1]] =
    runIngestion ⟨none, some 10, HUploadManagerLocation.PAYLOAD⟩
      (⟨fun k => if k == "content-length" then some "abc" else none,
        none, none, none⟩ : HRequestState Unit) "/tmp/ab" [[1]] :=
  nanContentLengthSkipsFastPath ⟨none, some 10, HUploadManagerLocation.PAYLOAD⟩
    (⟨fun k => if k == "content-length" then some "abc" else none,
      none, none, none⟩ : HRequestState Unit)
    "/tmp/ab" [[1]] 10 "abc" rfl rfl rfl (by decide)

end Hydrogen
